import Mathlib

/-!
# Verification of the billing-projection simulator

A shallow embedding of the projection engine and of the HTTP-handler logic of
the billing/staffing simulator, together with theorems settling the spec's
claims about it.

The repository ships `app.py` (the transport layer).  The projection engine
(`simulacion.simular_proyeccion`) and the synthetic-data generator
(`generator.generar_dataset`) are imported by `app.py` but their sources are
not part of the repository snapshot, so the engine below is modelled from the
specification (sections 3, 4, 6, 7 of the design document), and the generator
is kept abstract, exactly as the spec treats it (an external collaborator).

Real-valued quantities are modelled as rational numbers (`ℚ`), the standard
exact stand-in for the spec's "real" fields.
-/

set_option maxRecDepth 20000

/-- Modelled from the spec: service channel, §3 — `Interno` or `Externo`. -/
inductive Channel where
  | Interno : Channel
  | Externo : Channel
deriving DecidableEq, Repr

/-- Modelled from the spec: one row of the Input Table (`HistoricalRecord`, §3):
a reporting period (year, month), a channel, a non-negative invoice count and a
non-negative billed amount.  The count is carried as an `Int` and the amount as
a `ℚ` so that the malformed-input check (§7, negative counts/amounts) is a real
run-time check, as in the source pipeline. -/
structure HistoricalRecord where
  year : Int
  month : Nat
  channel : Channel
  invoice_count : Int
  invoice_amount : ℚ
deriving DecidableEq, Repr

/-- Modelled from the spec: `ProjectionParameters` (§3).  `throughput_rate`
(invoices per staff-hour) is the configuration constant §4.4 requires
("a throughput rate — invoices per hour — must be a fixed or derivable
constant documented as part of configuration"). -/
structure ProjectionParameters where
  target_year : Int
  invoice_count_growth_rate : ℚ
  invoice_amount_growth_rate : ℚ
  internal_share : ℚ
  external_share : ℚ
  hours_per_day_per_staff : ℚ
  working_days_per_month : Int
  throughput_rate : ℚ
deriving DecidableEq, Repr

/-- Modelled from the spec: the distinguishable error kinds of §7. -/
inductive EngineError where
  | MalformedInputError : EngineError
  | ConfigurationError : EngineError
deriving DecidableEq, Repr

/-- Modelled from the spec: one row of the monthly forecast table (§3). -/
structure MonthlyProjectionRow where
  month : Nat
  channel : Channel
  projected_invoice_count : ℚ
  projected_invoice_amount : ℚ
  hours_required : ℚ
  staff_required_for_month : Int
deriving DecidableEq, Repr

/-- Modelled from the spec: one row of the annual summary table (§3). -/
structure AnnualSummaryRow where
  channel : Channel
  peak_staff_required_for_year : Int
  average_staff_required_per_month : ℚ
deriving DecidableEq, Repr

/-- Ceiling of a rational, computed from `Rat.floor`; equal to `Int.ceil`
(lemma `ratCeil_eq_ceil`). -/
def ratCeil (q : ℚ) : Int := -(Rat.floor (-q))

/-- Modelled from the spec: `years = target_year - base_year`, minimum 0
(§4.2).  `Int.toNat` is exactly `max 0` followed by the cast. -/
def yearsElapsed (target_year base_year : Int) : Nat :=
  (target_year - base_year).toNat

/-- Modelled from the spec: the Growth Projector formula (§4.2),
`projected_total = base_total * (1 + growth_rate) ** years`. -/
def projectTotal (base_total growth_rate : ℚ) (years : Nat) : ℚ :=
  base_total * (1 + growth_rate) ^ years

/-- Modelled from the spec: the share of projected volume attributed to a
channel (§3, `internal_share` / `external_share`). -/
def channelShare (p : ProjectionParameters) : Channel → ℚ
  | Channel.Interno => p.internal_share
  | Channel.Externo => p.external_share

/-- Modelled from the spec: capacity one staff member provides per month
(§4.4), `monthly_capacity_per_staff = hours_per_day_per_staff *
working_days_per_month`. -/
def monthlyCapacity (p : ProjectionParameters) : ℚ :=
  p.hours_per_day_per_staff * (p.working_days_per_month : ℚ)

/-- Modelled from the spec: the base year of the historical table.  §4.1
fixes the baseline to "the most recent complete historical year"; we adopt
that policy (§9 records it as the implementer's documented choice): the
base year is the largest year occurring in the table, and an empty table
degenerates to the target year itself (so that zero elapsed years are
compounded). -/
def baseYear (table : List HistoricalRecord) (target_year : Int) : Int :=
  match table.map HistoricalRecord.year with
  | [] => target_year
  | y :: ys => ys.foldl max y

/-- Modelled from the spec: the Historical Aggregator (§4.1) — collapse the
Input Table into one `(base_count, base_amount)` baseline per channel, summing
the rows of the given base year for that channel.  A total function: it never
fails, and a channel absent from the input gets the `(0, 0)` baseline. -/
def aggregateBaseline (table : List HistoricalRecord) (base_year : Int)
    (c : Channel) : Int × ℚ :=
  table.foldl
    (fun acc r =>
      if r.channel = c ∧ r.year = base_year then
        (acc.1 + r.invoice_count, acc.2 + r.invoice_amount)
      else acc)
    (0, 0)

/-- The baseline mapping of a table under given parameters. -/
def baselineOf (table : List HistoricalRecord) (p : ProjectionParameters)
    (c : Channel) : Int × ℚ :=
  aggregateBaseline table (baseYear table p.target_year) c

/-- Years compounded by the engine for a given table and parameter set. -/
def yearsOf (table : List HistoricalRecord) (p : ProjectionParameters) : Nat :=
  yearsElapsed p.target_year (baseYear table p.target_year)

/-- Modelled from the spec: the projected annual invoice count attributed to a
channel (§4.2 compounding applied to the channel's baseline count, §4.3 share).
Reconciling §4.1 (per-channel baselines), §4.3 (shares) and the zero-history
identity of §8, the share multiplies the channel's own projected baseline. -/
def annualCountFor (table : List HistoricalRecord) (p : ProjectionParameters)
    (c : Channel) : ℚ :=
  projectTotal ((baselineOf table p c).1 : ℚ) p.invoice_count_growth_rate
      (yearsOf table p) * channelShare p c

/-- Modelled from the spec: the projected annual invoice amount attributed to a
channel (§4.2 compounding applied to the channel's baseline amount, §4.3
share). -/
def annualAmountFor (table : List HistoricalRecord) (p : ProjectionParameters)
    (c : Channel) : ℚ :=
  projectTotal (baselineOf table p c).2 p.invoice_amount_growth_rate
      (yearsOf table p) * channelShare p c

/-- Modelled from the spec: one row of the monthly table (§4.3 even split of
the annual totals over the 12 months, §4.4 staffing formulas). -/
def monthlyRow (table : List HistoricalRecord) (p : ProjectionParameters)
    (m : Nat) (c : Channel) : MonthlyProjectionRow :=
  let cnt : ℚ := annualCountFor table p c / 12
  let amt : ℚ := annualAmountFor table p c / 12
  let hrs : ℚ := cnt / p.throughput_rate
  { month := m
    channel := c
    projected_invoice_count := cnt
    projected_invoice_amount := amt
    hours_required := hrs
    staff_required_for_month := ratCeil (hrs / monthlyCapacity p) }

/-- The chronological months of the projected year (§4.5). -/
def months : List Nat := [1, 2, 3, 4, 5, 6, 7, 8, 9, 10, 11, 12]

/-- The canonical channel order of the output tables (§4.5). -/
def channels : List Channel := [Channel.Interno, Channel.Externo]

/-- Modelled from the spec: the monthly forecast table, months chronologically
1–12 and, within a month, channels in canonical order (§4.5). -/
def monthlyTable (table : List HistoricalRecord) (p : ProjectionParameters) :
    List MonthlyProjectionRow :=
  months.flatMap fun m => channels.map fun c => monthlyRow table p m c

/-- The 12 monthly staffing figures of a channel, in month order. -/
def staffListFor (table : List HistoricalRecord) (p : ProjectionParameters)
    (c : Channel) : List Int :=
  months.map fun m => (monthlyRow table p m c).staff_required_for_month

/-- Maximum of a list of integers (0 for the empty list, which the engine
never produces: its lists always have 12 entries). -/
def peakOf (l : List Int) : Int :=
  match l with
  | [] => 0
  | a :: as => as.foldl max a

/-- Arithmetic mean of a list of integers, as a rational (0 for the empty
list). -/
def meanOf (l : List Int) : ℚ :=
  (l.sum : ℚ) / (l.length : ℚ)

/-- Modelled from the spec: one row of the annual summary table (§4.4 annual
rollup): the peak and the mean of the channel's 12 monthly staffing figures. -/
def annualRow (table : List HistoricalRecord) (p : ProjectionParameters)
    (c : Channel) : AnnualSummaryRow :=
  { channel := c
    peak_staff_required_for_year := peakOf (staffListFor table p c)
    average_staff_required_per_month := meanOf (staffListFor table p c) }

/-- Modelled from the spec: the annual summary table, channels in canonical
order (§4.5). -/
def annualTable (table : List HistoricalRecord) (p : ProjectionParameters) :
    List AnnualSummaryRow :=
  channels.map fun c => annualRow table p c

/-- Modelled from the spec: a table is well formed when no row has a negative
count or amount (§7, `MalformedInputError` otherwise). -/
def validTable (table : List HistoricalRecord) : Bool :=
  table.all fun r => decide (0 ≤ r.invoice_count) && decide (0 ≤ r.invoice_amount)

/-- Modelled from the spec: the engine entry point `project` (§6).  Errors
abort the whole call and no partial tables are returned (§7): the result is
either a single error kind or both complete tables.  The configuration check
of §4.4 (non-positive throughput or monthly capacity) is fatal and performed
first. -/
def project (table : List HistoricalRecord) (p : ProjectionParameters) :
    Except EngineError (List MonthlyProjectionRow × List AnnualSummaryRow) :=
  if p.throughput_rate ≤ 0 ∨ monthlyCapacity p ≤ 0 then
    Except.error EngineError.ConfigurationError
  else if validTable table then
    Except.ok (monthlyTable table p, annualTable table p)
  else
    Except.error EngineError.MalformedInputError

/-!
## The transport layer (`app.py`)

The pieces of `app.py` the claims are about: the collaborator totals computed
by the `/simulation` page handler (lines 139–161) and the attachment naming of
the `POST /generador` handler (lines 82–93).
-/

/-- Python's built-in `round` (round half to even) on a rational, followed by
`int(...)`, as in `int(round(r["colaboradores_pico_anual"]))` of `app.py`
line 149. -/
def pythonRound (q : ℚ) : Int :=
  let f := Rat.floor q
  let frac := q - (f : ℚ)
  if frac < 1 / 2 then f
  else if 1 / 2 < frac then f + 1
  else if f % 2 = 0 then f else f + 1

/-- One row of `df_anual` with the columns the `/simulation` handler reads:
`aplicativo`, `colaboradores_pico_anual`, `colaboradores_necesarios_mes`. -/
structure AnnualRecordApp where
  aplicativo : String
  colaboradores_pico_anual : ℚ
  colaboradores_necesarios_mes : ℚ
deriving DecidableEq, Repr

/-- The annual collaborator figure the `/simulation` handler computes for one
channel (`app.py` lines 139–157): `0` when `df_anual` is empty, otherwise
`int(round(...))` of the `colaboradores_pico_anual` of the first row whose
`aplicativo` equals the channel name, and `0` when no such row exists. -/
def colabsAnualFor (annual : List AnnualRecordApp) (ch : String) : Int :=
  if annual.isEmpty then 0
  else
    match annual.find? (fun r => r.aplicativo == ch) with
    | none => 0
    | some r => pythonRound r.colaboradores_pico_anual

/-- The combined annual collaborator total of the `/simulation` handler
(`app.py` line 160): `colabs_interno_anual + colabs_externo_anual`. -/
def total_colabs_anual (annual : List AnnualRecordApp) : Int :=
  colabsAnualFor annual "Interno" + colabsAnualFor annual "Externo"

/-- Python whitespace, the characters `str.strip()` removes: exactly those
with `str.isspace()` true, i.e. the Unicode space separators (categories Zs,
Zl, Zp) together with the whitespace bidirectional classes — U+0009–U+000D,
U+001C–U+001F, U+0020, U+0085, U+00A0, U+1680, U+2000–U+200A, U+2028, U+2029,
U+202F, U+205F and U+3000. -/
def isPyWhitespace (c : Char) : Bool :=
  let n := c.toNat
  decide ((0x09 ≤ n ∧ n ≤ 0x0d) ∨ (0x1c ≤ n ∧ n ≤ 0x1f) ∨ n = 0x20 ∨ n = 0x85
    ∨ n = 0xa0 ∨ n = 0x1680 ∨ (0x2000 ≤ n ∧ n ≤ 0x200a) ∨ n = 0x2028
    ∨ n = 0x2029 ∨ n = 0x202f ∨ n = 0x205f ∨ n = 0x3000)

/-- Python's `str.strip()`: drop leading and trailing whitespace
(`isPyWhitespace`) from both ends of the string. -/
def pyStrip (s : String) : String :=
  String.mk (((s.data.dropWhile isPyWhitespace).reverse.dropWhile isPyWhitespace).reverse)

/-- The form fields of `POST /generador` that are passed on to
`generar_dataset` (`app.py` lines 63–80). -/
structure GeneratorForm where
  anioInicial : Int
  anioFinal : Int
  totalFacturasInicial : Int
  totalFacturacionInicial : Int
  totalPrestadores : Int
  totalPrestadoresSoloInterno : Int
  seed : Int
deriving DecidableEq, Repr

/-- Embedding of the `generar_datos_csv` handler (`app.py` lines 61–93),
returning the pair (CSV body, attachment file name).  The synthetic-data
generator is the external collaborator the spec leaves abstract, so it enters
as a function argument `gen`; the handler applies it to the form fields only.
The attachment name is `f"{safe_name}.csv"` with
`safe_name = filename.strip() or "DatosPrueba"` (lines 86–87). -/
def generarDatosCsv (gen : GeneratorForm → String) (form : GeneratorForm)
    (filename : String) : String × String :=
  let safe_name := if pyStrip filename = "" then "DatosPrueba" else pyStrip filename
  (gen form, safe_name ++ ".csv")

/-!
## Concrete inputs used by witnesses and counterexamples
-/

/-- A small well-formed historical table with one `Interno` row. -/
def sampleTable : List HistoricalRecord :=
  [{ year := 2025, month := 1, channel := Channel.Interno,
     invoice_count := 100, invoice_amount := 50 }]

/-- A well-formed parameter set with positive capacity constants. -/
def sampleParams : ProjectionParameters :=
  { target_year := 2026
    invoice_count_growth_rate := 1 / 20
    invoice_amount_growth_rate := 3 / 100
    internal_share := 92 / 100
    external_share := 8 / 100
    hours_per_day_per_staff := 8
    working_days_per_month := 20
    throughput_rate := 1 }

/-- A table whose rows are all `Externo` (no `Interno` history). -/
def externoOnlyTable : List HistoricalRecord :=
  [{ year := 2025, month := 3, channel := Channel.Externo,
     invoice_count := 40, invoice_amount := 75 }]

/-- A parameter set with a non-positive throughput rate. -/
def badParams : ProjectionParameters :=
  { sampleParams with throughput_rate := 0 }

/-- Table for the negative-staffing counterexample. -/
def negTable : List HistoricalRecord :=
  [{ year := 2025, month := 1, channel := Channel.Interno,
     invoice_count := 1200, invoice_amount := 0 }]

/-- Parameters with an invoice-count growth rate below `-1`: the compounding
factor `1 + growth_rate` is negative. -/
def negParams : ProjectionParameters :=
  { target_year := 2026
    invoice_count_growth_rate := -2
    invoice_amount_growth_rate := 0
    internal_share := 1
    external_share := 0
    hours_per_day_per_staff := 1
    working_days_per_month := 1
    throughput_rate := 1 }

/-- The scenario table of §8: one baseline year with `Interno` totals of
10000 invoices and $1,000,000. -/
def scnTable : List HistoricalRecord :=
  [{ year := 2025, month := 1, channel := Channel.Interno,
     invoice_count := 10000, invoice_amount := 1000000 }]

/-- The scenario parameters of §8: `target_year` = baseline + 1,
`invoice_count_growth_rate = 0.05`, `internal_share = 1.0`. -/
def scnParams : ProjectionParameters :=
  { target_year := 2026
    invoice_count_growth_rate := 1 / 20
    invoice_amount_growth_rate := 3 / 100
    internal_share := 1
    external_share := 0
    hours_per_day_per_staff := 8
    working_days_per_month := 20
    throughput_rate := 1 }

/-- A one-row annual table as read by the `/simulation` handler. -/
def annualSample : List AnnualRecordApp :=
  [{ aplicativo := "Interno", colaboradores_pico_anual := 5 / 2,
     colaboradores_necesarios_mes := 3 }]

/-- A concrete stand-in for the external CSV generator. -/
def genSample : GeneratorForm → String := fun _ => "anio,mes"

/-- Concrete generator form fields (the defaults of `app.py` lines 50–56). -/
def formSample : GeneratorForm :=
  { anioInicial := 2021
    anioFinal := 2025
    totalFacturasInicial := 65974
    totalFacturacionInicial := 53609928028
    totalPrestadores := 1338
    totalPrestadoresSoloInterno := 663
    seed := 42 }

/-!
## Supporting lemmas
-/

theorem ratCeil_eq_ceil (q : ℚ) : ratCeil q = ⌈q⌉ := by
  have h : Rat.floor (-q) = ⌊-q⌋ := rfl
  rw [ratCeil, h, Int.floor_neg, neg_neg]

theorem ratFloor_eq_floor (q : ℚ) : Rat.floor q = ⌊q⌋ := rfl

theorem validTable_iff (table : List HistoricalRecord) :
    validTable table = true ↔
      ∀ r ∈ table, 0 ≤ r.invoice_count ∧ 0 ≤ r.invoice_amount := by
  simp [validTable, List.all_eq_true]

theorem project_ok_elim {table : List HistoricalRecord}
    {p : ProjectionParameters} {mT : List MonthlyProjectionRow}
    {aT : List AnnualSummaryRow}
    (h : project table p = Except.ok (mT, aT)) :
    0 < p.throughput_rate ∧ 0 < monthlyCapacity p ∧ validTable table = true
    ∧ mT = monthlyTable table p ∧ aT = annualTable table p := by
  unfold project at h
  split at h
  · exact absurd h (by simp)
  · rename_i hcfg
    push_neg at hcfg
    split at h
    · rename_i hval
      have hpair : (monthlyTable table p, annualTable table p) = (mT, aT) :=
        Except.ok.inj h
      exact ⟨hcfg.1, hcfg.2, hval, (congrArg Prod.fst hpair).symm,
        (congrArg Prod.snd hpair).symm⟩
    · exact absurd h (by simp)

theorem mem_monthlyTable {table : List HistoricalRecord}
    {p : ProjectionParameters} {row : MonthlyProjectionRow} :
    row ∈ monthlyTable table p ↔
      ∃ m ∈ months, ∃ c ∈ channels, row = monthlyRow table p m c := by
  simp only [monthlyTable, List.mem_flatMap, List.mem_map]
  constructor
  · rintro ⟨m, hm, c, hc, rfl⟩
    exact ⟨m, hm, c, hc, rfl⟩
  · rintro ⟨m, hm, c, hc, rfl⟩
    exact ⟨m, hm, c, hc, rfl⟩

theorem monthlyTable_filter_channel (table : List HistoricalRecord)
    (p : ProjectionParameters) (c : Channel) :
    (monthlyTable table p).filter (fun r => r.channel == c)
      = months.map fun m => monthlyRow table p m c := by
  cases c <;> rfl

theorem monthlyTable_filter_month (table : List HistoricalRecord)
    (p : ProjectionParameters) (m : Nat) (hm : m ∈ months) :
    (monthlyTable table p).filter (fun r => r.month == m)
      = [monthlyRow table p m Channel.Interno,
         monthlyRow table p m Channel.Externo] := by
  simp only [months] at hm
  fin_cases hm <;> rfl

theorem map_count_filter (table : List HistoricalRecord)
    (p : ProjectionParameters) (c : Channel) :
    ((monthlyTable table p).filter (fun r => r.channel == c)).map
        MonthlyProjectionRow.projected_invoice_count
      = List.replicate 12 (annualCountFor table p c / 12) := by
  rw [monthlyTable_filter_channel]
  rfl

theorem sum_replicate_twelve (q : ℚ) : (List.replicate 12 q).sum = 12 * q := by
  simp [List.sum_replicate, nsmul_eq_mul]
  ring

theorem aggregate_go_absent (rs : List HistoricalRecord) (y : Int) (c : Channel)
    (acc : Int × ℚ) (hc : ∀ r ∈ rs, r.channel ≠ c) :
    rs.foldl
      (fun acc r =>
        if r.channel = c ∧ r.year = y then
          (acc.1 + r.invoice_count, acc.2 + r.invoice_amount)
        else acc)
      acc = acc := by
  induction rs generalizing acc with
  | nil => rfl
  | cons r rs ih =>
    rw [List.foldl_cons, if_neg fun hh => hc r (List.mem_cons_self r rs) hh.1]
    exact ih acc fun x hx => hc x (List.mem_cons_of_mem r hx)

theorem aggregateBaseline_absent (table : List HistoricalRecord) (y : Int)
    (c : Channel) (hc : ∀ r ∈ table, r.channel ≠ c) :
    aggregateBaseline table y c = (0, 0) :=
  aggregate_go_absent table y c (0, 0) hc

theorem aggregate_go_nonneg (rs : List HistoricalRecord) (y : Int) (c : Channel)
    (acc : Int × ℚ) (h1 : 0 ≤ acc.1) (h2 : 0 ≤ acc.2)
    (hv : ∀ r ∈ rs, 0 ≤ r.invoice_count ∧ 0 ≤ r.invoice_amount) :
    0 ≤ (rs.foldl
      (fun acc r =>
        if r.channel = c ∧ r.year = y then
          (acc.1 + r.invoice_count, acc.2 + r.invoice_amount)
        else acc)
      acc).1
    ∧ 0 ≤ (rs.foldl
      (fun acc r =>
        if r.channel = c ∧ r.year = y then
          (acc.1 + r.invoice_count, acc.2 + r.invoice_amount)
        else acc)
      acc).2 := by
  induction rs generalizing acc with
  | nil => exact ⟨h1, h2⟩
  | cons r rs ih =>
    rw [List.foldl_cons]
    have hr := hv r (List.mem_cons_self r rs)
    have hv' : ∀ x ∈ rs, 0 ≤ x.invoice_count ∧ 0 ≤ x.invoice_amount :=
      fun x hx => hv x (List.mem_cons_of_mem r hx)
    by_cases hcond : r.channel = c ∧ r.year = y
    · rw [if_pos hcond]
      exact ih _ (add_nonneg h1 hr.1) (add_nonneg h2 hr.2) hv'
    · rw [if_neg hcond]
      exact ih _ h1 h2 hv'

theorem baselineOf_nonneg (table : List HistoricalRecord)
    (p : ProjectionParameters) (c : Channel) (hval : validTable table = true) :
    0 ≤ (baselineOf table p c).1 ∧ 0 ≤ (baselineOf table p c).2 :=
  aggregate_go_nonneg table (baseYear table p.target_year) c (0, 0) le_rfl le_rfl
    ((validTable_iff table).mp hval)

theorem annualCountFor_nonneg (table : List HistoricalRecord)
    (p : ProjectionParameters) (c : Channel) (hval : validTable table = true)
    (hg : -1 ≤ p.invoice_count_growth_rate) (hs : 0 ≤ channelShare p c) :
    0 ≤ annualCountFor table p c := by
  have hbase : (0 : ℚ) ≤ ((baselineOf table p c).1 : ℚ) := by
    exact_mod_cast (baselineOf_nonneg table p c hval).1
  have hpow : (0 : ℚ) ≤ (1 + p.invoice_count_growth_rate) ^ yearsOf table p :=
    pow_nonneg (by linarith) _
  exact mul_nonneg (mul_nonneg hbase hpow) hs

theorem colabsAnualFor_eq (annual : List AnnualRecordApp) (ch : String) :
    colabsAnualFor annual ch
      = match annual.find? (fun x => x.aplicativo == ch) with
        | none => 0
        | some r => pythonRound r.colaboradores_pico_anual := by
  cases annual with
  | nil => rfl
  | cons a as => rfl

theorem pythonRound_nearest (q : ℚ) : |(pythonRound q : ℚ) - q| ≤ 1 / 2 := by
  have hfl : ((⌊q⌋ : ℤ) : ℚ) ≤ q := Int.floor_le q
  have hfu : q < ((⌊q⌋ : ℤ) : ℚ) + 1 := Int.lt_floor_add_one q
  have hc : ((⌊q⌋ + 1 : ℤ) : ℚ) = ((⌊q⌋ : ℤ) : ℚ) + 1 := by push_cast; ring
  unfold pythonRound
  simp only [ratFloor_eq_floor]
  split_ifs with h1 h2 h3 <;> rw [abs_sub_le_iff] <;>
    refine ⟨?_, ?_⟩ <;> push_cast <;> linarith

/-!
## The claims
-/

/-- C1: the Growth Projector computes each projected annual total as
`projected_total = base_total * (1 + growth_rate) ** years` with
`years = max(0, target_year - base_year)`; the formula is applied
independently to the invoice count (with the count growth rate) and the
invoice amount (with the amount growth rate); and whenever
`target_year - base_year ≤ 0` the projected total equals the baseline total
unchanged. -/
theorem growth_projector_formula (base_total growth_rate : ℚ)
    (target_year base_year : Int) :
    projectTotal base_total growth_rate (yearsElapsed target_year base_year)
      = base_total * (1 + growth_rate) ^ (max 0 (target_year - base_year)).toNat
    ∧ (target_year - base_year ≤ 0 →
        projectTotal base_total growth_rate (yearsElapsed target_year base_year)
          = base_total)
    ∧ ∀ (table : List HistoricalRecord) (p : ProjectionParameters) (c : Channel),
        annualCountFor table p c
          = projectTotal ((baselineOf table p c).1 : ℚ)
              p.invoice_count_growth_rate (yearsOf table p) * channelShare p c
        ∧ annualAmountFor table p c
          = projectTotal (baselineOf table p c).2
              p.invoice_amount_growth_rate (yearsOf table p) * channelShare p c := by
  refine ⟨?_, ?_, fun table p c => ⟨rfl, rfl⟩⟩
  · have h : (max 0 (target_year - base_year)).toNat
        = (target_year - base_year).toNat := by omega
    rw [yearsElapsed, projectTotal, h]
  · intro h
    have h0 : yearsElapsed target_year base_year = 0 := by
      unfold yearsElapsed
      omega
    rw [h0, projectTotal, pow_zero, mul_one]

/-- Witness for the C1 theorem: two years backward means zero compounding and
the baseline is returned unchanged. -/
theorem growth_projector_formula_witness :
    projectTotal 7 (1 / 2) (yearsElapsed 2024 2026) = 7 :=
  (growth_projector_formula 7 (1 / 2) 2024 2026).2.1 (by decide)

/-- C4: if `throughput_rate ≤ 0` or `monthly_capacity_per_staff ≤ 0`, the
whole `project` call fails with `ConfigurationError` (the error is the entire
result — no partial tables exist); with positive capacity and throughput
constants no `ConfigurationError` is ever returned. -/
theorem configuration_error_spec (table : List HistoricalRecord)
    (p : ProjectionParameters) :
    ((p.throughput_rate ≤ 0 ∨ monthlyCapacity p ≤ 0) →
      project table p = Except.error EngineError.ConfigurationError)
    ∧ (0 < p.throughput_rate → 0 < monthlyCapacity p →
      project table p ≠ Except.error EngineError.ConfigurationError) := by
  constructor
  · intro h
    unfold project
    rw [if_pos h]
  · intro h1 h2
    unfold project
    rw [if_neg (by push_neg; exact ⟨h1, h2⟩)]
    split
    · simp
    · simp

/-- Witness for the C4 theorem: zero throughput aborts the projection. -/
theorem configuration_error_spec_witness :
    project sampleTable badParams = Except.error EngineError.ConfigurationError :=
  (configuration_error_spec sampleTable badParams).1 (Or.inl (le_of_eq rfl))

/-- C10: the CSV attachment of `POST /generador` is named `s + ".csv"` where
`s` is the submitted filename with surrounding whitespace stripped, except
that a filename that strips to empty yields `"DatosPrueba.csv"`; the CSV body
does not depend on the filename parameter. -/
theorem generador_attachment_spec (gen : GeneratorForm → String)
    (form : GeneratorForm) (filename other : String) :
    (generarDatosCsv gen form filename).1 = (generarDatosCsv gen form other).1
    ∧ (pyStrip filename ≠ "" →
        (generarDatosCsv gen form filename).2 = pyStrip filename ++ ".csv")
    ∧ (pyStrip filename = "" →
        (generarDatosCsv gen form filename).2 = "DatosPrueba.csv") := by
  refine ⟨rfl, fun h => ?_, fun h => ?_⟩
  · show (if pyStrip filename = "" then "DatosPrueba" else pyStrip filename)
        ++ ".csv" = pyStrip filename ++ ".csv"
    rw [if_neg h]
  · show (if pyStrip filename = "" then "DatosPrueba" else pyStrip filename)
        ++ ".csv" = "DatosPrueba.csv"
    rw [if_pos h]
    rfl

/-- Witness for the C10 theorem: a padded filename is stripped and given the
`.csv` suffix. -/
theorem generador_attachment_spec_witness :
    (generarDatosCsv genSample formSample "  datos  ").2
      = pyStrip "  datos  " ++ ".csv" :=
  (generador_attachment_spec genSample formSample "  datos  " "x").2.1
    (by decide)

/-- C2: conservation — for every successfully projected input and every
channel, the sum of the 12 monthly projected invoice counts of that channel
equals the channel's projected annual total, and for every month the sum
across channels equals that month's combined total; both hold exactly, hence
within the stated 1e-6 tolerance. -/
theorem conservation (table : List HistoricalRecord) (p : ProjectionParameters)
    (mT : List MonthlyProjectionRow) (aT : List AnnualSummaryRow)
    (h : project table p = Except.ok (mT, aT)) :
    (∀ c, |((mT.filter (fun r => r.channel == c)).map
          MonthlyProjectionRow.projected_invoice_count).sum
        - annualCountFor table p c| ≤ 1 / 1000000)
    ∧ ∀ m ∈ months,
        |((mT.filter (fun r => r.month == m)).map
            MonthlyProjectionRow.projected_invoice_count).sum
          - (annualCountFor table p Channel.Interno
              + annualCountFor table p Channel.Externo) / 12| ≤ 1 / 1000000 := by
  obtain ⟨-, -, -, hmT, -⟩ := project_ok_elim h
  subst hmT
  constructor
  · intro c
    rw [map_count_filter, sum_replicate_twelve]
    have h12 : (12 : ℚ) * (annualCountFor table p c / 12)
        = annualCountFor table p c := by
      field_simp
    rw [h12, sub_self, abs_zero]
    norm_num
  · intro m hm
    rw [monthlyTable_filter_month table p m hm]
    have hsum : (([monthlyRow table p m Channel.Interno,
          monthlyRow table p m Channel.Externo]).map
            MonthlyProjectionRow.projected_invoice_count).sum
        = (annualCountFor table p Channel.Interno
            + annualCountFor table p Channel.Externo) / 12 := by
      show annualCountFor table p Channel.Interno / 12
          + (annualCountFor table p Channel.Externo / 12 + 0) = _
      ring
    rw [hsum, sub_self, abs_zero]
    norm_num

/-- Witness for the C2 theorem at a concrete table and parameter set. -/
theorem conservation_witness :
    |(((monthlyTable sampleTable sampleParams).filter
          (fun r => r.channel == Channel.Interno)).map
        MonthlyProjectionRow.projected_invoice_count).sum
      - annualCountFor sampleTable sampleParams Channel.Interno| ≤ 1 / 1000000 :=
  (conservation sampleTable sampleParams
    (monthlyTable sampleTable sampleParams)
    (annualTable sampleTable sampleParams)
    (by with_unfolding_all rfl)).1 Channel.Interno

/-- C5: zero-history identity — when the historical table has no rows for a
channel, the (total, hence never-failing) aggregator gives that channel the
`(0, 0)` baseline, and every monthly and annual output figure of that channel
(counts, amounts, hours, staff) is exactly 0. -/
theorem zero_history_identity (table : List HistoricalRecord)
    (p : ProjectionParameters) (c : Channel)
    (hc : ∀ r ∈ table, r.channel ≠ c) :
    baselineOf table p c = (0, 0)
    ∧ annualCountFor table p c = 0
    ∧ annualAmountFor table p c = 0
    ∧ ∀ mT aT, project table p = Except.ok (mT, aT) →
        (∀ row ∈ mT, row.channel = c →
          row.projected_invoice_count = 0 ∧ row.projected_invoice_amount = 0
          ∧ row.hours_required = 0 ∧ row.staff_required_for_month = 0)
        ∧ ∀ row ∈ aT, row.channel = c →
          row.peak_staff_required_for_year = 0
          ∧ row.average_staff_required_per_month = 0 := by
  have hbase : baselineOf table p c = (0, 0) :=
    aggregateBaseline_absent table (baseYear table p.target_year) c hc
  have hcount : annualCountFor table p c = 0 := by
    unfold annualCountFor projectTotal
    rw [hbase]
    simp
  have hamount : annualAmountFor table p c = 0 := by
    unfold annualAmountFor projectTotal
    rw [hbase]
    simp
  have hstaff : ∀ m, (monthlyRow table p m c).staff_required_for_month = 0 := by
    intro m
    show ratCeil (annualCountFor table p c / 12 / p.throughput_rate
        / monthlyCapacity p) = 0
    rw [ratCeil_eq_ceil, hcount, zero_div, zero_div, zero_div, Int.ceil_zero]
  refine ⟨hbase, hcount, hamount, fun mT aT hok => ?_⟩
  obtain ⟨-, -, -, hmT, haT⟩ := project_ok_elim hok
  subst hmT haT
  constructor
  · intro row hrow hch
    rcases mem_monthlyTable.mp hrow with ⟨m, hm, c', hc', rfl⟩
    have : c' = c := hch
    subst this
    refine ⟨?_, ?_, ?_, hstaff m⟩
    · show annualCountFor table p c' / 12 = 0
      rw [hcount, zero_div]
    · show annualAmountFor table p c' / 12 = 0
      rw [hamount, zero_div]
    · show annualCountFor table p c' / 12 / p.throughput_rate = 0
      rw [hcount, zero_div, zero_div]
  · intro row hrow hch
    have hrow' : row = annualRow table p Channel.Interno
        ∨ row = annualRow table p Channel.Externo := by
      simpa [annualTable, channels] using hrow
    have hsl : staffListFor table p c = List.replicate 12 0 := by
      simp only [staffListFor, months, List.map]
      rw [hstaff, hstaff, hstaff, hstaff, hstaff, hstaff, hstaff, hstaff,
        hstaff, hstaff, hstaff, hstaff]
      rfl
    rcases hrow' with rfl | rfl
    · have : Channel.Interno = c := hch
      subst this
      refine ⟨?_, ?_⟩
      · show peakOf (staffListFor table p Channel.Interno) = 0
        rw [hsl]
        decide
      · show meanOf (staffListFor table p Channel.Interno) = 0
        rw [hsl]
        simp [meanOf]
    · have : Channel.Externo = c := hch
      subst this
      refine ⟨?_, ?_⟩
      · show peakOf (staffListFor table p Channel.Externo) = 0
        rw [hsl]
        decide
      · show meanOf (staffListFor table p Channel.Externo) = 0
        rw [hsl]
        simp [meanOf]

/-- Witness for the C5 theorem: a table with only `Externo` history projects
an `Interno` annual total of exactly 0. -/
theorem zero_history_identity_witness :
    annualCountFor externoOnlyTable sampleParams Channel.Interno = 0 :=
  (zero_history_identity externoOnlyTable sampleParams Channel.Interno
    (by decide)).2.1

/-- C6: annual rollup — in every successful engine result, each annual
summary row's peak is the maximum, and its average the arithmetic mean, of
that channel's 12 monthly staffing figures from the monthly table. -/
theorem annual_rollup (table : List HistoricalRecord)
    (p : ProjectionParameters) (mT : List MonthlyProjectionRow)
    (aT : List AnnualSummaryRow)
    (h : project table p = Except.ok (mT, aT)) :
    ∀ row ∈ aT,
      row.peak_staff_required_for_year
        = peakOf ((mT.filter (fun r => r.channel == row.channel)).map
            MonthlyProjectionRow.staff_required_for_month)
      ∧ row.average_staff_required_per_month
        = meanOf ((mT.filter (fun r => r.channel == row.channel)).map
            MonthlyProjectionRow.staff_required_for_month) := by
  obtain ⟨-, -, -, hmT, haT⟩ := project_ok_elim h
  subst hmT haT
  intro row hrow
  have hrow' : row = annualRow table p Channel.Interno
      ∨ row = annualRow table p Channel.Externo := by
    simpa [annualTable, channels] using hrow
  rcases hrow' with rfl | rfl <;>
    rw [monthlyTable_filter_channel] <;> exact ⟨rfl, rfl⟩

/-- Witness for the C6 theorem at a concrete table and parameter set. -/
theorem annual_rollup_witness :
    (annualRow sampleTable sampleParams Channel.Interno).peak_staff_required_for_year
      = peakOf (((monthlyTable sampleTable sampleParams).filter
          (fun r => r.channel
            == (annualRow sampleTable sampleParams Channel.Interno).channel)).map
        MonthlyProjectionRow.staff_required_for_month) :=
  (annual_rollup sampleTable sampleParams
    (monthlyTable sampleTable sampleParams)
    (annualTable sampleTable sampleParams)
    (by with_unfolding_all rfl)
    (annualRow sampleTable sampleParams Channel.Interno)
    (List.mem_cons_self _ _)).1

/-- C3 (amended): for every monthly row of a successful projection,
`hours_required = projected_invoice_count / throughput_rate` and
`staff_required_for_month = ceil(hours_required / monthly_capacity_per_staff)`
with `monthly_capacity_per_staff = hours_per_day_per_staff *
working_days_per_month`; the staffing figure is an integer by construction,
and it is non-negative provided the count compounding factor is non-negative
(`invoice_count_growth_rate ≥ -1`) and the channel shares are non-negative
(their spec-declared `[0,1]` domain).  Unconditional non-negativity — the
claim as stated — fails for growth rates below `-1`, as a separate
counterexample theorem shows. -/
theorem staffing_formula (table : List HistoricalRecord)
    (p : ProjectionParameters) (mT : List MonthlyProjectionRow)
    (aT : List AnnualSummaryRow) (row : MonthlyProjectionRow)
    (h : project table p = Except.ok (mT, aT)) (hrow : row ∈ mT)
    (hg : -1 ≤ p.invoice_count_growth_rate)
    (hsi : 0 ≤ p.internal_share) (hse : 0 ≤ p.external_share) :
    row.hours_required = row.projected_invoice_count / p.throughput_rate
    ∧ row.staff_required_for_month = ⌈row.hours_required / monthlyCapacity p⌉
    ∧ 0 ≤ row.staff_required_for_month := by
  obtain ⟨hthr, hcap, hval, hmT, -⟩ := project_ok_elim h
  subst hmT
  rcases mem_monthlyTable.mp hrow with ⟨m, hm, c, hc, rfl⟩
  refine ⟨rfl, ratCeil_eq_ceil _, ?_⟩
  have hshare : 0 ≤ channelShare p c := by
    cases c
    · exact hsi
    · exact hse
  have hcnt : 0 ≤ annualCountFor table p c :=
    annualCountFor_nonneg table p c hval hg hshare
  show 0 ≤ ratCeil (annualCountFor table p c / 12 / p.throughput_rate
      / monthlyCapacity p)
  rw [ratCeil_eq_ceil]
  exact Int.ceil_nonneg
    (div_nonneg (div_nonneg (div_nonneg hcnt (by norm_num)) hthr.le) hcap.le)

/-- Witness for the C3 theorem at a concrete row of a concrete projection. -/
theorem staffing_formula_witness :
    0 ≤ (monthlyRow sampleTable sampleParams 1
        Channel.Interno).staff_required_for_month :=
  (staffing_formula sampleTable sampleParams
    (monthlyTable sampleTable sampleParams)
    (annualTable sampleTable sampleParams)
    (monthlyRow sampleTable sampleParams 1 Channel.Interno)
    (by with_unfolding_all rfl)
    (List.mem_cons_self _ _)
    (by norm_num [sampleParams])
    (by norm_num [sampleParams])
    (by norm_num [sampleParams])).2.2

/-- C3 counterexample: with an invoice-count growth rate of `-2` (a value the
spec's parameter domain does not exclude) the projection succeeds and yields a
strictly negative `staff_required_for_month`, so the claim's unconditional
non-negativity fails. -/
theorem staffing_negative_counterexample :
    project negTable negParams
      = Except.ok (monthlyTable negTable negParams, annualTable negTable negParams)
    ∧ (monthlyTable negTable negParams).any
        (fun r => decide (r.staff_required_for_month < 0)) = true := by
  constructor
  · with_unfolding_all rfl
  · with_unfolding_all rfl

/-- C7 (amended): for a fixed baseline and `growth_rate > 0`, the projected
annual totals are monotone non-decreasing in the target year whenever the
baseline is non-negative (as every aggregated baseline is), and strictly
increasing into positive elapsed years provided the baseline is strictly
positive.  With a zero baseline — a legitimate baseline, produced e.g. by a
channel with no history — the totals are constantly 0, so the claim's strict
increase for every baseline fails, as a separate counterexample theorem
shows. -/
theorem growth_monotonicity (base_total growth_rate : ℚ)
    (base_year t1 t2 : Int) (hg : 0 < growth_rate) (hb : 0 ≤ base_total)
    (h12 : t1 ≤ t2) :
    projectTotal base_total growth_rate (yearsElapsed t1 base_year)
      ≤ projectTotal base_total growth_rate (yearsElapsed t2 base_year)
    ∧ (0 < base_total → t1 < t2 → base_year < t2 →
        projectTotal base_total growth_rate (yearsElapsed t1 base_year)
          < projectTotal base_total growth_rate (yearsElapsed t2 base_year)) := by
  constructor
  · unfold projectTotal
    apply mul_le_mul_of_nonneg_left _ hb
    apply pow_le_pow_right₀ (by linarith)
    unfold yearsElapsed
    omega
  · intro hbpos hlt hby
    unfold projectTotal
    apply mul_lt_mul_of_pos_left _ hbpos
    apply pow_lt_pow_right₀ (by linarith)
    unfold yearsElapsed
    omega

/-- Witness for the C7 theorem: a positive baseline strictly grows from the
base year to the next. -/
theorem growth_monotonicity_witness :
    projectTotal 5 1 (yearsElapsed 2020 2020)
      < projectTotal 5 1 (yearsElapsed 2021 2020) :=
  (growth_monotonicity 5 1 2020 2020 2021 (by norm_num) (by norm_num)
    (by decide)).2 (by norm_num) (by decide) (by decide)

/-- C7 counterexample: with a zero baseline and growth rate 1, moving the
target year from 2021 to 2022 (both beyond the base year 2020, so
`years > 0`) leaves the projected total unchanged, refuting strict increase
for every baseline. -/
theorem growth_monotonicity_counterexample :
    0 < yearsElapsed 2021 2020
    ∧ projectTotal 0 1 (yearsElapsed 2021 2020)
        = projectTotal 0 1 (yearsElapsed 2022 2020) := by
  refine ⟨by decide, ?_⟩
  unfold projectTotal
  norm_num

/-- C8: the §8 scenario — baseline `Interno` totals of 10000 invoices and
$1,000,000, target year = baseline + 1, count growth 5%, internal share 1.0 —
projects successfully to an annual `Interno` count of 10500, split into 12
equal monthly counts of 875 (no rounding adjustment is needed: the split is
exact and sums back to 10500). -/
theorem scenario_projection :
    project scnTable scnParams
      = Except.ok (monthlyTable scnTable scnParams, annualTable scnTable scnParams)
    ∧ annualCountFor scnTable scnParams Channel.Interno = 10500
    ∧ ((monthlyTable scnTable scnParams).filter
          (fun r => r.channel == Channel.Interno)).map
        MonthlyProjectionRow.projected_invoice_count = List.replicate 12 875
    ∧ (((monthlyTable scnTable scnParams).filter
          (fun r => r.channel == Channel.Interno)).map
        MonthlyProjectionRow.projected_invoice_count).sum = 10500 := by
  have hann : annualCountFor scnTable scnParams Channel.Interno = 10500 := by
    with_unfolding_all rfl
  have h875 : (10500 : ℚ) / 12 = 875 := by norm_num
  refine ⟨by with_unfolding_all rfl, hann, ?_, ?_⟩
  · rw [map_count_filter, hann, h875]
  · rw [map_count_filter, sum_replicate_twelve, hann, h875]
    norm_num

/-- C9: the `/simulation` handler computes the combined annual staff total as
`int(round(peak_Interno)) + int(round(peak_Externo))`, where each channel's
figure is Python's rounding (half to even — in particular within 1/2 of the
exact value, i.e. a nearest integer) of the `colaboradores_pico_anual` of the
first matching row of the annual table, and a channel with no row — or an
entirely empty annual table — contributes exactly 0 instead of raising. -/
theorem simulation_totals (annual : List AnnualRecordApp) :
    total_colabs_anual annual
      = colabsAnualFor annual "Interno" + colabsAnualFor annual "Externo"
    ∧ (∀ r, annual.find? (fun x => x.aplicativo == "Interno") = some r →
        colabsAnualFor annual "Interno" = pythonRound r.colaboradores_pico_anual)
    ∧ (annual.find? (fun x => x.aplicativo == "Interno") = none →
        colabsAnualFor annual "Interno" = 0)
    ∧ (∀ r, annual.find? (fun x => x.aplicativo == "Externo") = some r →
        colabsAnualFor annual "Externo" = pythonRound r.colaboradores_pico_anual)
    ∧ (annual.find? (fun x => x.aplicativo == "Externo") = none →
        colabsAnualFor annual "Externo" = 0)
    ∧ total_colabs_anual [] = 0
    ∧ ∀ q : ℚ, |(pythonRound q : ℚ) - q| ≤ 1 / 2 := by
  refine ⟨rfl, ?_, ?_, ?_, ?_, rfl, pythonRound_nearest⟩
  · intro r h
    rw [colabsAnualFor_eq, h]
  · intro h
    rw [colabsAnualFor_eq, h]
  · intro r h
    rw [colabsAnualFor_eq, h]
  · intro h
    rw [colabsAnualFor_eq, h]

/-- Witness for the C9 theorem: a one-row annual table with an `Interno` peak
of 5/2 contributes its Python-rounded value. -/
theorem simulation_totals_witness :
    colabsAnualFor annualSample "Interno" = pythonRound ((5 : ℚ) / 2) :=
  (simulation_totals annualSample).2.1
    { aplicativo := "Interno", colaboradores_pico_anual := 5 / 2,
      colaboradores_necesarios_mes := 3 }
    (by with_unfolding_all rfl)
